import Mathlib

/-!
Shallow embedding of the job-orchestration core of the `eletrons-server`
repository: the job manager (`src/app/services/job_manager.py`), its data
model (`src/app/models/training.py`) and the SSE broadcast hub
(`src/app/services/sse_manager.py`).

Modelling conventions:
* Python `int` is `Int` (unbounded); Python `float` metric values are
  modelled as `ℚ` (the claims under scrutiny concern the exact arithmetic
  formulas, not rounding).
* `datetime.now()` is an abstract monotone tick passed in as a `Nat`
  argument `now`.
* Python dicts are association lists (`List (κ × α)`); assignment updates
  the first binding in place or appends a fresh binding at the end, which
  matches insertion-ordered `dict` semantics.
* `save_jobs` (a full-file rewrite of the job table) is modelled by
  consing a snapshot of the job list onto a `persisted` history.
* A raised exception that propagates to the caller is `Except.error` /
  `Option.none`; exceptions caught inside a function are modelled by
  embedding the body of the corresponding `except` block.
-/

namespace EletronsServer

/-- Job status enum (`JobStatus` in `src/app/models/training.py`). -/
inductive JobStatus where
  | pending
  | running
  | completed
  | failed
  | cancelled
deriving DecidableEq, Repr

/-- String value of a status, as rendered into the `ValueError` message of
`start_job` (the enum mixes in `str`, so it formats as its value). -/
def JobStatus.value : JobStatus → String
  | .pending => "pending"
  | .running => "running"
  | .completed => "completed"
  | .failed => "failed"
  | .cancelled => "cancelled"

/-- Training metrics snapshot (`TrainingMetrics` in `training.py`). -/
structure TrainingMetrics where
  epoch : Int
  total_epochs : Int
  train_loss : ℚ
  val_loss : Option ℚ := none
  precision : Option ℚ := none
  «recall» : Option ℚ := none
  map50 : Option ℚ := none
  map50_95 : Option ℚ := none
  learning_rate : ℚ
  eta : Option String := none
deriving DecidableEq, Repr

/-- Training configuration (`TrainingConfig` in `training.py`), with the
model defaults. -/
structure TrainingConfig where
  base_model : String := "yolov8n.pt"
  epochs : Int := 100
  batch_size : Int := 16
  image_size : Int := 640
  learning_rate : ℚ := 1 / 100
  optimizer : String := "AdamW"
  device : Option String := none
  workers : Int := 8
  patience : Int := 50
  save_period : Int := 10
  augment : Bool := true
  mosaic : ℚ := 1
  mixup : ℚ := 0
  copy_paste : ℚ := 0
deriving DecidableEq, Repr

/-- Dataset descriptor (`DatasetInfo` in `training.py`). -/
structure DatasetInfo where
  name : String
  path : String
  classes : List String
  train_images : Int
  val_images : Int
  test_images : Option Int := none
deriving DecidableEq, Repr

/-- A training job (`TrainingJob` in `training.py`). -/
structure TrainingJob where
  id : String
  name : String
  status : JobStatus := JobStatus.pending
  config : TrainingConfig
  dataset : DatasetInfo
  created_at : Nat
  started_at : Option Nat := none
  completed_at : Option Nat := none
  current_epoch : Int := 0
  progress_percent : ℚ := 0
  metrics : Option TrainingMetrics := none
  best_metrics : Option (List (String × ℚ)) := none
  model_path : Option String := none
  weights_path : Option String := none
  logs_path : Option String := none
  error_message : Option String := none
deriving DecidableEq, Repr

/-- Payload of a progress event (the `data` dict passed to
`add_job_event`; the three shapes actually produced by `_run_training`). -/
inductive EventData where
  | metricsData (m : TrainingMetrics)
  | completedData (model_path : Option String) (best : Option (List (String × ℚ)))
  | errorData (error : String)
deriving DecidableEq, Repr

/-- One entry of a job's event log (`ProgressUpdate` in `training.py`). -/
structure ProgressUpdate where
  job_id : String
  event_type : String
  data : EventData
  timestamp : Nat
deriving DecidableEq, Repr

/-- Request to create a job (`JobCreateRequest` in `training.py`). -/
structure JobCreateRequest where
  name : String
  dataset_path : String
  config : TrainingConfig
deriving DecidableEq, Repr

/-! ### Association-list dictionaries -/

/-- Embeds `d.get(k)` on an association-list dictionary. -/
def lookupA {κ α : Type} [DecidableEq κ] : List (κ × α) → κ → Option α
  | [], _ => none
  | (k2, v) :: rest, k => if k2 = k then some v else lookupA rest k

/-- Embeds `d[k] = v` on an association-list dictionary: replaces the first
binding of `k` in place, or appends a fresh binding at the end. -/
def updateA {κ α : Type} [DecidableEq κ] : List (κ × α) → κ → α → List (κ × α)
  | [], k, v => [(k, v)]
  | (k2, w) :: rest, k, v =>
      if k2 = k then (k2, v) :: rest else (k2, w) :: updateA rest k v

/-! ### Job manager state (`JobManager` in `job_manager.py`) -/

/-- The mutable state of `JobManager`: the `jobs` dict (represented as the
list of its values, keyed by `TrainingJob.id`), the `active_jobs` dict
(represented by its key set), the `job_events` dict, the history of
snapshots written by `save_jobs` (newest first), and the configured
`settings.MAX_CONCURRENT_JOBS` (default 2, `src/app/core/config.py`). -/
structure ManagerState where
  jobs : List TrainingJob
  active_jobs : List String
  job_events : List (String × List ProgressUpdate)
  persisted : List (List TrainingJob)
  max_concurrent_jobs : Nat := 2
deriving DecidableEq, Repr

/-- Embeds `self.jobs.get(job_id)` — ids are unique, so the first hit is the
binding. -/
def findJob (jobs : List TrainingJob) (jobId : String) : Option TrainingJob :=
  jobs.find? (fun j => j.id = jobId)

/-- Mutate the job stored under `jobId` (object mutation through the dict). -/
def updateJob (jobs : List TrainingJob) (jobId : String)
    (f : TrainingJob → TrainingJob) : List TrainingJob :=
  jobs.map (fun j => if j.id = jobId then f j else j)

/-- Embeds `self.jobs[job.id] = job`: dict assignment. -/
def insertJob (jobs : List TrainingJob) (job : TrainingJob) : List TrainingJob :=
  if (findJob jobs job.id).isSome then updateJob jobs job.id (fun _ => job)
  else jobs ++ [job]

/-- Embeds `save_jobs`: serializes the whole job table to the persistence file
(modelled as pushing a snapshot onto the write history). -/
def save_jobs (st : ManagerState) : ManagerState :=
  { st with persisted := st.jobs :: st.persisted }

/-- The error message written onto jobs found RUNNING at reload time. -/
def restartMessage : String := "Sistema reiniciado durante execução"

/-- Per-record body of `load_jobs`: a job stored as RUNNING is reset to
FAILED with `restartMessage`; all other records are kept as stored. -/
def load_job (j : TrainingJob) : TrainingJob :=
  if j.status = JobStatus.running then
    { j with status := JobStatus.failed, error_message := some restartMessage }
  else j

/-- Embeds `load_jobs`: parse the persisted table and reset RUNNING jobs. -/
def load_jobs (stored : List TrainingJob) : List TrainingJob :=
  stored.map load_job

/-! ### Event log (`add_job_event`) -/

/-- The per-job event-log cap (`# Manter apenas os últimos 1000 eventos`). -/
def eventLogLimit : Nat := 1000

/-- Append an event and truncate to the most recent `eventLogLimit`
entries (`self.job_events[job_id].append(event)` followed by the
`[-1000:]` slice when the list exceeds 1000). -/
def appendEvent (events : List ProgressUpdate) (e : ProgressUpdate) :
    List ProgressUpdate :=
  let l := events ++ [e]
  if eventLogLimit < l.length then l.drop (l.length - eventLogLimit) else l

/-- Embeds `add_job_event`: look up (or create) the job's event list and append
with truncation. -/
def add_job_event (st : ManagerState) (jobId : String) (event_type : String)
    (data : EventData) (now : Nat) : ManagerState :=
  let events := (lookupA st.job_events jobId).getD []
  let e : ProgressUpdate :=
    { job_id := jobId, event_type := event_type, data := data, timestamp := now }
  { st with job_events := updateA st.job_events jobId (appendEvent events e) }

/-! ### Job lifecycle operations -/

/-- The `ValueError` message raised when starting a non-PENDING job. -/
def notPendingMessage (jobId : String) (s : JobStatus) : String :=
  "Job " ++ jobId ++ " não está pendente (status: " ++ s.value ++ ")"

/-- The `ValueError` message raised at the concurrency cap. -/
def capacityMessage (limit : Nat) : String :=
  "Limite de jobs simultâneos atingido (" ++ toString limit ++ ")"

/-- Body of `start_job`'s `except` block when `job_id in self.jobs`: the
job is marked FAILED with the error text and `False` is returned (no
`save_jobs` call on this path). -/
def startFailed (st : ManagerState) (jobId : String) (msg : String) :
    ManagerState :=
  let f := fun (j : TrainingJob) =>
    { j with status := JobStatus.failed, error_message := some msg }
  { st with jobs := updateJob st.jobs jobId f }

/-- Count of RUNNING jobs (`active_count` in `start_job`). -/
def runningCount (st : ManagerState) : Nat :=
  (st.jobs.filter (fun j => j.status = JobStatus.running)).length

/-- Embeds `start_job`: validates existence, PENDING status and the concurrency
cap; on success marks the job RUNNING, records the start time, registers
the execution task and persists. Each raised `ValueError` is caught by the
function's own `except` block, which — when the id is present — marks the
job FAILED with `str(e)` and returns `False`. -/
def start_job (st : ManagerState) (jobId : String) (now : Nat) :
    ManagerState × Bool :=
  match findJob st.jobs jobId with
  | none => (st, false)
  | some job =>
    if job.status = JobStatus.pending then
      if st.max_concurrent_jobs ≤ runningCount st then
        (startFailed st jobId (capacityMessage st.max_concurrent_jobs), false)
      else
        let f := fun (j : TrainingJob) =>
          { j with status := JobStatus.running, started_at := some now }
        let st1 := { st with
          jobs := updateJob st.jobs jobId f,
          active_jobs := jobId :: st.active_jobs }
        (save_jobs st1, true)
    else
      (startFailed st jobId (notPendingMessage jobId job.status), false)

/-- Embeds `cancel_job`: missing id raises (caught, returns `False`, no
mutation); otherwise the live task — if any — is cancelled and dropped
from `active_jobs`, the job is set CANCELLED, `completed_at` is assigned
`datetime.now()`, and the table is persisted. -/
def cancel_job (st : ManagerState) (jobId : String) (now : Nat) :
    ManagerState × Bool :=
  match findJob st.jobs jobId with
  | none => (st, false)
  | some _ =>
    let f := fun (j : TrainingJob) =>
      { j with status := JobStatus.cancelled, completed_at := some now }
    let st1 := { st with
      active_jobs := st.active_jobs.filter (fun i => i ≠ jobId),
      jobs := updateJob st.jobs jobId f }
    (save_jobs st1, true)

/-! ### Dataset analysis and job creation -/

/-- Outcome of the `try` body of `_analyze_dataset` (yaml parsing, label
scanning and image counting over the filesystem — an environment
interaction): either it produced a descriptor or it raised. -/
inductive AnalysisAttempt where
  | ok (info : DatasetInfo)
  | raised
deriving DecidableEq, Repr

/-- Embeds `_analyze_dataset`: on any exception from the analysis body, the
`except` block returns the fallback descriptor with classes
`["unknown"]` and zero train/val image counts. -/
def analyze_dataset (dsName dsPath : String) (attempt : AnalysisAttempt) :
    DatasetInfo :=
  match attempt with
  | AnalysisAttempt.ok info => info
  | AnalysisAttempt.raised =>
      { name := dsName, path := dsPath, classes := ["unknown"],
        train_images := 0, val_images := 0, test_images := none }

/-- Embeds `create_job`: a missing dataset path raises `ValueError` (re-raised by
the `except` block); otherwise the dataset is analyzed, a fresh PENDING
job is built, stored under its id and the table persisted. `pathExists`
models `Path(request.dataset_path).exists()` and `dsName` models
`dataset_path.name`. -/
def create_job (st : ManagerState) (req : JobCreateRequest)
    (pathExists : Bool) (dsName : String) (attempt : AnalysisAttempt)
    (newId : String) (now : Nat) : Except String (ManagerState × TrainingJob) :=
  if pathExists then
    let info := analyze_dataset dsName req.dataset_path attempt
    let job : TrainingJob :=
      { id := newId, name := req.name, status := JobStatus.pending,
        config := req.config, dataset := info, created_at := now }
    let st1 := { st with jobs := insertJob st.jobs job }
    Except.ok (save_jobs st1, job)
  else
    Except.error ("Dataset não encontrado: " ++ req.dataset_path)

/-! ### Progress callback (`_run_training.progress_callback`) -/

/-- The progress callback: sets the job's `metrics`, `current_epoch` and
`progress_percent = (epoch / total_epochs) * 100`, appends a `metrics`
event and persists. `none` models the `ZeroDivisionError` raised by the
Python float division when `total_epochs = 0` (which would propagate out
of the callback). -/
def progress_callback (st : ManagerState) (jobId : String)
    (m : TrainingMetrics) (now : Nat) : Option ManagerState :=
  if m.total_epochs = 0 then none
  else
    let f := fun (j : TrainingJob) =>
      { j with
        metrics := some m,
        current_epoch := m.epoch,
        progress_percent := ((m.epoch : ℚ) / (m.total_epochs : ℚ)) * 100 }
    let st1 := { st with jobs := updateJob st.jobs jobId f }
    let st2 := add_job_event st1 jobId "metrics" (EventData.metricsData m) now
    some (save_jobs st2)

/-! ### SSE broadcast hub (`SSEManager` in `sse_manager.py`)

Mailboxes (`asyncio.Queue(maxsize=100)` instances) are identified by a
`Nat` id standing for Python object identity; the subscriber sets hold
these ids. Serialization (`f"data: ..."` SSE framing of the JSON dict) is
abstracted away: queues carry the structured messages. -/

/-- The `job_update` message dict built by `broadcast_job_update`
(`type` is the constant `"job_update"`; the remaining fields follow). -/
structure ProgressMsg where
  job_id : String
  event_type : String
  data : EventData
  timestamp : Nat
deriving DecidableEq, Repr

/-- One value stored in `last_state`: either the `last_state["jobs"]`
sub-dict (job id maps to the last broadcast `job_update` message) or the
`last_state["system"]` system-data payload. No code path ever writes any
other key. The free-form system metrics dict is abstracted as a tag. -/
inductive LastState where
  | jobsMap (entries : List (String × ProgressMsg))
  | systemData (d : String)
deriving DecidableEq, Repr

/-- The messages put into SSE mailboxes, one constructor per message dict
built by `sse_manager.py`. -/
inductive SSEMessage where
  | jobUpdate (m : ProgressMsg)
  | trainingMetrics (job_id : String) (metrics : TrainingMetrics) (ts : Nat)
  | systemUpdate (data : String) (ts : Nat)
  | stateMsg (ctype : String) (data : LastState) (ts : Nat)
  | connectedMsg (ctype : String) (job_id : Option String) (ts : Nat)
  | heartbeat (ts : Nat)
deriving DecidableEq, Repr

/-- A subscriber mailbox: the queued messages plus a `broken` flag
modelling a queue whose enqueue raises an exception other than
`QueueFull` (the "otherwise broken" connection of the dead-connection
handling). -/
structure Mailbox where
  msgs : List SSEMessage
  broken : Bool := false
deriving DecidableEq, Repr

/-- The mutable state of `SSEManager`: the per-topic subscriber sets
(`connections`), the per-job sets (`job_connections`), the mailboxes by
id, and the `last_state` cache. -/
structure HubState where
  connections : List (String × List Nat)
  job_connections : List (String × List Nat)
  mailboxes : List (Nat × Mailbox)
  last_state : List (String × LastState)
deriving DecidableEq, Repr

/-- Constructor state: the three fixed topic sets, everything else empty. -/
def initialHub : HubState :=
  { connections := [("jobs", []), ("system", []), ("training", [])],
    job_connections := [], mailboxes := [], last_state := [] }

/-- Embeds `asyncio.Queue(maxsize=100)`: the mailbox capacity. -/
def queueCapacity : Nat := 100

/-- How an `await queue.put(...)` completed. -/
inductive PutOutcome where
  | immediate
  | afterWait
deriving DecidableEq, Repr

/-- Embeds `await queue.put(msg)` on a bounded `asyncio.Queue`: the coroutine
suspends while the queue is at capacity and appends once a slot frees
(`afterWait`); with a free slot it appends at once (`immediate`). `put`
never raises `QueueFull` — only `put_nowait` does — so the message is
never dropped. -/
def queuePut (q : List SSEMessage) (msg : SSEMessage) :
    List SSEMessage × PutOutcome :=
  if queueCapacity ≤ q.length then (q ++ [msg], PutOutcome.afterWait)
  else (q ++ [msg], PutOutcome.immediate)

/-- Result of `_send_to_queue`. -/
inductive SendResult where
  | sent (mb : Mailbox) (outcome : PutOutcome)
  | errored
deriving DecidableEq, Repr

/-- Embeds `_send_to_queue`: serialize and `await queue.put`. The
`except asyncio.QueueFull` drop-branch is unreachable because `queuePut`
never raises it; any other exception (broken mailbox) is logged and
re-raised (`errored`). -/
def send_to_queue (mb : Mailbox) (msg : SSEMessage) : SendResult :=
  if mb.broken then SendResult.errored
  else
    let r := queuePut mb.msgs msg
    SendResult.sent { mb with msgs := r.1 } r.2

/-- Whether the mailbox registered under `i` raises on enqueue. -/
def isBrokenIn (hub : HubState) (i : Nat) : Bool :=
  match lookupA hub.mailboxes i with
  | some mb => mb.broken
  | none => false

/-- Deliver `msg` to every non-broken mailbox whose id is in `ids`
(the loop body of the two broadcast helpers: `_send_to_queue` appends
into each live queue; a broken queue raises and is collected as dead). -/
def deliverToSet (mailboxes : List (Nat × Mailbox)) (ids : List Nat)
    (msg : SSEMessage) : List (Nat × Mailbox) :=
  mailboxes.map (fun p =>
    (p.1, if p.1 ∈ ids ∧ p.2.broken = false then
            { p.2 with msgs := (queuePut p.2.msgs msg).1 }
          else p.2))

/-- Embeds `_broadcast_to_type`: send to every mailbox in the topic's set,
collect mailboxes whose send raised into `dead_connections`, and discard
the dead ones from that topic set only. -/
def broadcast_to_type (hub : HubState) (ctype : String) (msg : SSEMessage) :
    HubState :=
  match lookupA hub.connections ctype with
  | none => hub
  | some ids =>
    let live := ids.filter (fun i => !isBrokenIn hub i)
    { hub with
      mailboxes := deliverToSet hub.mailboxes ids msg,
      connections := updateA hub.connections ctype live }

/-- Embeds `_broadcast_to_job`: same loop over the job-specific set; dead
mailboxes are discarded from that job set only. -/
def broadcast_to_job (hub : HubState) (jobId : String) (msg : SSEMessage) :
    HubState :=
  match lookupA hub.job_connections jobId with
  | none => hub
  | some ids =>
    let live := ids.filter (fun i => !isBrokenIn hub i)
    { hub with
      mailboxes := deliverToSet hub.mailboxes ids msg,
      job_connections := updateA hub.job_connections jobId live }

/-- Embeds `broadcast_job_update`: build the `job_update` message, broadcast to
the `jobs` topic, then to the job's own set if present, then record the
message in `last_state["jobs"][job_id]` (creating the sub-dict first when
missing). -/
def broadcast_job_update (hub : HubState) (jobId : String)
    (event_type : String) (data : EventData) (now : Nat) : HubState :=
  let m : ProgressMsg :=
    { job_id := jobId, event_type := event_type, data := data, timestamp := now }
  let msg := SSEMessage.jobUpdate m
  let h1 := broadcast_to_type hub "jobs" msg
  let h2 := if (lookupA h1.job_connections jobId).isSome then
      broadcast_to_job h1 jobId msg
    else h1
  let jm := match lookupA h2.last_state "jobs" with
    | some (LastState.jobsMap entries) => entries
    | _ => []
  let ls := updateA h2.last_state "jobs" (LastState.jobsMap (updateA jm jobId m))
  { h2 with last_state := ls }

/-- Embeds `broadcast_training_metrics`: build the `training_metrics` message,
broadcast to the `training` topic and to the job's own set if present.
No `last_state` write occurs on this path. -/
def broadcast_training_metrics (hub : HubState) (jobId : String)
    (metrics : TrainingMetrics) (now : Nat) : HubState :=
  let msg := SSEMessage.trainingMetrics jobId metrics now
  let h1 := broadcast_to_type hub "training" msg
  if (lookupA h1.job_connections jobId).isSome then
    broadcast_to_job h1 jobId msg
  else h1

/-- Embeds `broadcast_system_update`: broadcast to the `system` topic and record
the payload in `last_state["system"]`. -/
def broadcast_system_update (hub : HubState) (data : String) (now : Nat) :
    HubState :=
  let msg := SSEMessage.systemUpdate data now
  let h1 := broadcast_to_type hub "system" msg
  { h1 with last_state := updateA h1.last_state "system" (LastState.systemData data) }

/-- Embeds `_send_to_queue` applied to the mailbox registered under `mid`, with
the surrounding `try/except` of `add_connection` swallowing a raised
exception (broken mailbox: no state change). -/
def sendToMailboxId (hub : HubState) (mid : Nat) (msg : SSEMessage) :
    HubState :=
  match lookupA hub.mailboxes mid with
  | none => hub
  | some mb =>
    match send_to_queue mb msg with
    | SendResult.sent mb2 _ => { hub with mailboxes := updateA hub.mailboxes mid mb2 }
    | SendResult.errored => hub

/-- Embeds `add_connection`: register the mailbox under the topic set (if the
topic is one of the three known ones) and under the job's set when a
`job_id` is given; then, if `connection_type in self.last_state`, send the
cached payload to the new mailbox as a `..._state` message. -/
def add_connection (hub : HubState) (ctype : String) (mid : Nat)
    (jobId : Option String) (now : Nat) : HubState :=
  let h1 := match lookupA hub.connections ctype with
    | some ids =>
      let ids2 := if ids.contains mid then ids else ids ++ [mid]
      { hub with connections := updateA hub.connections ctype ids2 }
    | none => hub
  let h2 := match jobId with
    | some jid =>
      let cur := (lookupA h1.job_connections jid).getD []
      let cur2 := if cur.contains mid then cur else cur ++ [mid]
      { h1 with job_connections := updateA h1.job_connections jid cur2 }
    | none => h1
  match lookupA h2.last_state ctype with
  | some payload => sendToMailboxId h2 mid (SSEMessage.stateMsg ctype payload now)
  | none => h2

/-- The subscription prologue of `create_event_stream`: allocate a fresh
empty bounded queue, `add_connection` it, then send the `connected`
frame. -/
def subscribeStream (hub : HubState) (ctype : String) (mid : Nat)
    (jobId : Option String) (now : Nat) : HubState :=
  let h0 := { hub with mailboxes := updateA hub.mailboxes mid { msgs := [], broken := false } }
  let h1 := add_connection h0 ctype mid jobId now
  sendToMailboxId h1 mid (SSEMessage.connectedMsg ctype jobId now)

/-! ### Concrete fixtures used by witnesses and counterexamples -/

def cfg0 : TrainingConfig := {}

def ds0 : DatasetInfo :=
  { name := "ds", path := "/data/ds", classes := ["a"],
    train_images := 1, val_images := 1 }

def mkJob (i : String) (s : JobStatus) : TrainingJob :=
  { id := i, name := i, status := s, config := cfg0, dataset := ds0,
    created_at := 0 }

def stC1 : ManagerState :=
  { jobs := [mkJob "a" JobStatus.completed], active_jobs := [],
    job_events := [], persisted := [] }

def stC2 : ManagerState :=
  { jobs := [mkJob "r1" JobStatus.running, mkJob "r2" JobStatus.running,
             mkJob "p" JobStatus.pending],
    active_jobs := ["r1", "r2"], job_events := [], persisted := [] }

def stEmpty : ManagerState :=
  { jobs := [], active_jobs := [], job_events := [], persisted := [] }

def ev0 : ProgressUpdate :=
  { job_id := "j", event_type := "error",
    data := EventData.errorData "e", timestamp := 0 }

def stC5 : ManagerState :=
  { jobs := [mkJob "r" JobStatus.running], active_jobs := ["r"],
    job_events := [], persisted := [] }

def mC5 : TrainingMetrics :=
  { epoch := 25, total_epochs := 50, train_loss := 1 / 10,
    learning_rate := 1 / 100 }

def stC6 : ManagerState :=
  { jobs := [{ mkJob "a" JobStatus.completed with completed_at := some 5 }],
    active_jobs := [], job_events := [], persisted := [] }

def mbBroken : Mailbox := { msgs := [], broken := true }

def mbLive : Mailbox := { msgs := [], broken := false }

def msgC7 : SSEMessage :=
  SSEMessage.jobUpdate
    { job_id := "j1", event_type := "metrics",
      data := EventData.errorData "x", timestamp := 3 }

def hubC7 : HubState :=
  { connections := [("jobs", [1, 2]), ("system", []), ("training", [])],
    job_connections := [("j1", [1])],
    mailboxes := [(1, mbBroken), (2, mbLive)],
    last_state := [] }

def mC9 : TrainingMetrics :=
  { epoch := 1, total_epochs := 2, train_loss := 1 / 2,
    learning_rate := 1 / 100 }

def hubC9 : HubState := broadcast_training_metrics initialHub "j1" mC9 1

/-- The job record built by `create_job` when the analysis body raised. -/
def fallbackJob (req : JobCreateRequest) (dsName newId : String)
    (now : Nat) : TrainingJob :=
  { id := newId, name := req.name, status := JobStatus.pending,
    config := req.config,
    dataset := analyze_dataset dsName req.dataset_path AnalysisAttempt.raised,
    created_at := now }

def reqC10 : JobCreateRequest :=
  { name := "n", dataset_path := "/data/ds", config := cfg0 }

def jobC10 : TrainingJob :=
  { id := "job_1", name := "n", status := JobStatus.pending, config := cfg0,
    dataset := { name := "ds", path := "/data/ds", classes := ["unknown"],
                 train_images := 0, val_images := 0, test_images := none },
    created_at := 4 }

def stC10 : ManagerState :=
  save_jobs { stEmpty with jobs := insertJob stEmpty.jobs jobC10 }

/-! ### Dictionary and list lemmas -/

theorem lookupA_updateA_self {κ α : Type} [DecidableEq κ]
    (l : List (κ × α)) (k : κ) (v : α) :
    lookupA (updateA l k v) k = some v := by
  induction l with
  | nil => simp [lookupA, updateA]
  | cons p rest ih =>
    by_cases h : p.1 = k
    · simp [lookupA, updateA, h]
    · simp [lookupA, updateA, h, ih]

theorem lookupA_updateA_ne {κ α : Type} [DecidableEq κ]
    (l : List (κ × α)) (k k2 : κ) (v : α) (hne : k ≠ k2) :
    lookupA (updateA l k v) k2 = lookupA l k2 := by
  induction l with
  | nil => simp [lookupA, updateA, hne]
  | cons p rest ih =>
    by_cases h : p.1 = k
    · simp [lookupA, updateA, h, hne]
    · simp [lookupA, updateA, h, ih]

theorem lookupA_mapVal {κ α : Type} [DecidableEq κ]
    (l : List (κ × α)) (g : κ → α → α) (k : κ) :
    lookupA (l.map (fun p => (p.1, g p.1 p.2))) k = (lookupA l k).map (g k) := by
  induction l with
  | nil => rfl
  | cons p rest ih =>
    by_cases h : p.1 = k
    · subst h; simp [lookupA]
    · simp [lookupA, h, ih]

theorem findJob_updateJob_self (jobs : List TrainingJob) (jobId : String)
    (f : TrainingJob → TrainingJob) (hf : ∀ j, (f j).id = j.id) :
    findJob (updateJob jobs jobId f) jobId = (findJob jobs jobId).map f := by
  induction jobs with
  | nil => rfl
  | cons j rest ih =>
    unfold findJob updateJob at *
    by_cases h : j.id = jobId
    · simp [List.find?_cons, h, hf j]
    · simp [List.find?_cons, h, ih]

theorem findJob_updateJob_ne (jobs : List TrainingJob) (jobId jobId2 : String)
    (f : TrainingJob → TrainingJob) (hf : ∀ j, (f j).id = j.id)
    (hne : jobId ≠ jobId2) :
    findJob (updateJob jobs jobId f) jobId2 = findJob jobs jobId2 := by
  induction jobs with
  | nil => rfl
  | cons j rest ih =>
    unfold findJob updateJob at *
    by_cases h : j.id = jobId
    · have hj2 : ¬ (f j).id = jobId2 := by rw [hf j, h]; exact hne
      have hj2b : ¬ j.id = jobId2 := by rw [h]; exact hne
      simp [List.find?_cons, h, hj2, hj2b, hne, ih]
    · by_cases h2 : j.id = jobId2
      · simp [List.find?_cons, h, h2, Ne.symm hne]
      · simp [List.find?_cons, h, h2, ih]

theorem findJob_updateJob_const (jobs : List TrainingJob) (job : TrainingJob) :
    findJob (updateJob jobs job.id (fun _ => job)) job.id =
      (findJob jobs job.id).map (fun _ => job) := by
  induction jobs with
  | nil => rfl
  | cons j rest ih =>
    unfold findJob updateJob at *
    by_cases h : j.id = job.id
    · simp [List.find?_cons, h]
    · simp [List.find?_cons, h, ih]

theorem findJob_insertJob (jobs : List TrainingJob) (job : TrainingJob) :
    findJob (insertJob jobs job) job.id = some job := by
  unfold insertJob
  by_cases h : (findJob jobs job.id).isSome
  · rw [if_pos h, findJob_updateJob_const]
    obtain ⟨j, hj⟩ := Option.isSome_iff_exists.mp h
    rw [hj]; rfl
  · rw [if_neg h]
    have h0 : findJob jobs job.id = none := Option.not_isSome_iff_eq_none.mp h
    unfold findJob at *
    simp [List.find?_append, h0]

theorem queuePut_fst (q : List SSEMessage) (m : SSEMessage) :
    (queuePut q m).1 = q ++ [m] := by
  unfold queuePut
  split <;> rfl

theorem appendEvent_length_le (l : List ProgressUpdate) (e : ProgressUpdate)
    (h : l.length ≤ eventLogLimit) :
    (appendEvent l e).length ≤ eventLogLimit := by
  by_cases hc : eventLogLimit < (l ++ [e]).length
  · simp only [appendEvent, if_pos hc, List.length_drop]
    omega
  · simp only [appendEvent, if_neg hc]
    omega

theorem foldl_appendEvent_length_le (es : List ProgressUpdate) :
    ∀ l : List ProgressUpdate, l.length ≤ eventLogLimit →
      (es.foldl appendEvent l).length ≤ eventLogLimit := by
  induction es with
  | nil => intro l h; simpa using h
  | cons e t ih => intro l h; exact ih _ (appendEvent_length_le l e h)

/-! ### Characterization lemmas for the job manager -/

theorem start_job_not_pending (st : ManagerState) (jobId : String) (now : Nat)
    (j : TrainingJob) (hfind : findJob st.jobs jobId = some j)
    (hs : j.status ≠ JobStatus.pending) :
    start_job st jobId now =
      (startFailed st jobId (notPendingMessage jobId j.status), false) := by
  unfold start_job
  rw [hfind]
  simp [hs]

theorem findJob_startFailed (st : ManagerState) (jobId : String) (msg : String)
    (j : TrainingJob) (hfind : findJob st.jobs jobId = some j) :
    findJob (startFailed st jobId msg).jobs jobId =
      some { j with status := JobStatus.failed, error_message := some msg } := by
  simp only [startFailed]
  have h := findJob_updateJob_self st.jobs jobId
    (fun j => { j with status := JobStatus.failed, error_message := some msg })
    (fun _ => rfl)
  rw [h, hfind]
  rfl

theorem start_job_false_of_not_pending (st : ManagerState) (jobId : String)
    (now : Nat) (j : TrainingJob) (hfind : findJob st.jobs jobId = some j)
    (hs : j.status ≠ JobStatus.pending) :
    (start_job st jobId now).2 = false := by
  rw [start_job_not_pending st jobId now j hfind hs]

theorem findJob_cancel_job_not_pending (st : ManagerState) (rid jobId : String)
    (now : Nat) (j : TrainingJob) (hfind : findJob st.jobs jobId = some j)
    (hs : j.status ≠ JobStatus.pending) :
    ∃ j2, findJob (cancel_job st rid now).1.jobs jobId = some j2 ∧
      j2.status ≠ JobStatus.pending := by
  unfold cancel_job
  cases hr : findJob st.jobs rid with
  | none => exact ⟨j, hfind, hs⟩
  | some jr =>
    simp only [save_jobs]
    have hcan := fun (i : String) => findJob_updateJob_self st.jobs i
      (fun j => { j with status := JobStatus.cancelled, completed_at := some now })
      (fun _ => rfl)
    have hcan2 := fun (i i2 : String) (hne : i ≠ i2) =>
      findJob_updateJob_ne st.jobs i i2
        (fun j => { j with status := JobStatus.cancelled, completed_at := some now })
        (fun _ => rfl) hne
    by_cases he : rid = jobId
    · subst he
      refine ⟨{ j with status := JobStatus.cancelled, completed_at := some now },
        ?_, ?_⟩
      · rw [hcan rid, hfind]; rfl
      · intro hcon
        simp at hcon
    · exact ⟨j, by rw [hcan2 rid jobId he]; exact hfind, hs⟩

/-! ### Characterization lemmas for the broadcast hub -/

theorem broadcast_to_type_last_state (hub : HubState) (t : String)
    (m : SSEMessage) : (broadcast_to_type hub t m).last_state = hub.last_state := by
  unfold broadcast_to_type
  cases lookupA hub.connections t <;> rfl

theorem broadcast_to_job_last_state (hub : HubState) (t : String)
    (m : SSEMessage) : (broadcast_to_job hub t m).last_state = hub.last_state := by
  unfold broadcast_to_job
  cases lookupA hub.job_connections t <;> rfl

theorem broadcast_to_type_job_connections (hub : HubState) (t : String)
    (m : SSEMessage) :
    (broadcast_to_type hub t m).job_connections = hub.job_connections := by
  unfold broadcast_to_type
  cases lookupA hub.connections t <;> rfl

theorem broadcast_job_update_last_state (hub : HubState) (jobId ty : String)
    (d : EventData) (now : Nat) :
    (broadcast_job_update hub jobId ty d now).last_state =
      updateA hub.last_state "jobs" (LastState.jobsMap (updateA
        (match lookupA hub.last_state "jobs" with
         | some (LastState.jobsMap entries) => entries
         | _ => [])
        jobId
        { job_id := jobId, event_type := ty, data := d, timestamp := now })) := by
  unfold broadcast_job_update
  have h1ls := broadcast_to_type_last_state hub "jobs" (SSEMessage.jobUpdate
    { job_id := jobId, event_type := ty, data := d, timestamp := now })
  by_cases hc : (lookupA (broadcast_to_type hub "jobs" (SSEMessage.jobUpdate
      { job_id := jobId, event_type := ty, data := d,
        timestamp := now })).job_connections jobId).isSome
  · simp only [if_pos hc]
    rw [broadcast_to_job_last_state, h1ls]
  · simp only [if_neg hc]
    rw [h1ls]

theorem broadcast_system_update_last_state (hub : HubState) (dsys : String)
    (now : Nat) :
    (broadcast_system_update hub dsys now).last_state =
      updateA hub.last_state "system" (LastState.systemData dsys) := by
  show updateA (broadcast_to_type hub "system"
      (SSEMessage.systemUpdate dsys now)).last_state "system"
      (LastState.systemData dsys) = _
  rw [broadcast_to_type_last_state]

theorem broadcast_training_metrics_last_state (hub : HubState) (jobId : String)
    (metrics : TrainingMetrics) (now : Nat) :
    (broadcast_training_metrics hub jobId metrics now).last_state =
      hub.last_state := by
  unfold broadcast_training_metrics
  by_cases h : (lookupA (broadcast_to_type hub "training"
      (SSEMessage.trainingMetrics jobId metrics now)).job_connections jobId).isSome
  · simp only [if_pos h]
    rw [broadcast_to_job_last_state, broadcast_to_type_last_state]
  · simp only [if_neg h]
    rw [broadcast_to_type_last_state]

theorem subscribeStream_mailbox (hub : HubState) (ctype : String) (mid : Nat)
    (jobId : Option String) (now : Nat) :
    lookupA (subscribeStream hub ctype mid jobId now).mailboxes mid =
      some { msgs := (match lookupA hub.last_state ctype with
                      | some p => [SSEMessage.stateMsg ctype p now,
                                   SSEMessage.connectedMsg ctype jobId now]
                      | none => [SSEMessage.connectedMsg ctype jobId now]),
             broken := false } := by
  cases hj : jobId <;>
    simp only [subscribeStream, add_connection] <;>
    cases hc : lookupA hub.connections ctype <;>
    cases hl : lookupA hub.last_state ctype <;>
    simp [sendToMailboxId, send_to_queue, queuePut, queueCapacity, hc, hl,
      lookupA_updateA_self]

/-! ### Claim theorems -/

/-- C1 (amended): `start_job` on a job whose status is RUNNING, COMPLETED,
FAILED or CANCELLED fails (returns `False`), but does not leave the status
unchanged: the `except` block overwrites the job's status with FAILED and
records the not-pending validation message as the job's error message. -/
theorem start_job_nonpending_marks_failed (st : ManagerState) (jobId : String)
    (now : Nat) (j : TrainingJob)
    (hfind : findJob st.jobs jobId = some j)
    (hs : j.status = JobStatus.running ∨ j.status = JobStatus.completed ∨
          j.status = JobStatus.failed ∨ j.status = JobStatus.cancelled) :
    (start_job st jobId now).2 = false ∧
    findJob (start_job st jobId now).1.jobs jobId =
      some { j with status := JobStatus.failed,
                    error_message := some (notPendingMessage jobId j.status) } := by
  have hnp : j.status ≠ JobStatus.pending := by
    rcases hs with h | h | h | h <;> rw [h] <;> intro hc <;>
      exact JobStatus.noConfusion hc
  rw [start_job_not_pending st jobId now j hfind hnp]
  exact ⟨rfl, findJob_startFailed st jobId _ j hfind⟩

/-- Witness for C1's amended theorem at a COMPLETED job. -/
theorem start_job_nonpending_marks_failed_witness :
    (start_job stC1 "a" 1).2 = false ∧
    findJob (start_job stC1 "a" 1).1.jobs "a" =
      some { mkJob "a" JobStatus.completed with
             status := JobStatus.failed,
             error_message := some (notPendingMessage "a" JobStatus.completed) } :=
  start_job_nonpending_marks_failed stC1 "a" 1 (mkJob "a" JobStatus.completed)
    (by rfl) (Or.inr (Or.inl rfl))

/-- C1 counterexample: starting a COMPLETED job does not leave its status
unchanged — the job ends up FAILED. -/
theorem start_job_status_changed_counterexample :
    (start_job stC1 "a" 1).2 = false ∧
    (findJob stC1.jobs "a").map TrainingJob.status = some JobStatus.completed ∧
    (findJob (start_job stC1 "a" 1).1.jobs "a").map TrainingJob.status =
      some JobStatus.failed := by
  refine ⟨rfl, rfl, ?_⟩
  rfl

/-- C2 (amended): starting a PENDING job while the RUNNING count has
reached the configured limit fails (returns `False`) — but instead of
leaving the job startable, the `except` block marks it FAILED with the
capacity message recorded; consequently the job can never be started
afterwards, in particular not after a running job is cancelled. -/
theorem start_job_capacity_marks_failed (st : ManagerState) (jobId : String)
    (now : Nat) (j : TrainingJob)
    (hfind : findJob st.jobs jobId = some j)
    (hp : j.status = JobStatus.pending)
    (hcap : st.max_concurrent_jobs ≤ runningCount st) :
    (start_job st jobId now).2 = false ∧
    findJob (start_job st jobId now).1.jobs jobId =
      some { j with status := JobStatus.failed,
                    error_message := some (capacityMessage st.max_concurrent_jobs) } ∧
    (∀ now2, (start_job (start_job st jobId now).1 jobId now2).2 = false) ∧
    (∀ rid now2 now3,
      (start_job (cancel_job (start_job st jobId now).1 rid now2).1
        jobId now3).2 = false) := by
  have hstep : start_job st jobId now =
      (startFailed st jobId (capacityMessage st.max_concurrent_jobs), false) := by
    unfold start_job
    rw [hfind]
    simp [hp, hcap]
  rw [hstep]
  have hfind2 := findJob_startFailed st jobId
    (capacityMessage st.max_concurrent_jobs) j hfind
  refine ⟨rfl, hfind2, ?_, ?_⟩
  · intro now2
    exact start_job_false_of_not_pending _ jobId now2 _ hfind2 (by simp)
  · intro rid now2 now3
    obtain ⟨j2, hj2, hj2s⟩ := findJob_cancel_job_not_pending
      (startFailed st jobId (capacityMessage st.max_concurrent_jobs))
      rid jobId now2 _ hfind2 (by simp)
    exact start_job_false_of_not_pending _ jobId now3 j2 hj2 hj2s

/-- Witness for C2's amended theorem: two RUNNING jobs at limit 2, one
PENDING job. -/
theorem start_job_capacity_marks_failed_witness :
    (start_job stC2 "p" 1).2 = false ∧
    (start_job (start_job stC2 "p" 1).1 "p" 2).2 = false ∧
    (start_job (cancel_job (start_job stC2 "p" 1).1 "r1" 2).1 "p" 3).2 = false := by
  have h := start_job_capacity_marks_failed stC2 "p" 1
    (mkJob "p" JobStatus.pending) (by rfl) rfl (by decide)
  exact ⟨h.1, h.2.2.1 2, h.2.2.2 "r1" 2 3⟩

/-- C2 counterexample: after the capacity failure the job is FAILED, so —
contrary to the claim — it cannot be started once a running job is
cancelled, although the RUNNING count (1) is back under the limit (2). -/
theorem start_job_capacity_counterexample :
    (start_job stC2 "p" 1).2 = false ∧
    runningCount (cancel_job (start_job stC2 "p" 1).1 "r1" 2).1 = 1 ∧
    (findJob (start_job stC2 "p" 1).1.jobs "p").map TrainingJob.status =
      some JobStatus.failed ∧
    (start_job (cancel_job (start_job stC2 "p" 1).1 "r1" 2).1 "p" 3).2 = false := by
  decide

/-- C3: reloading a persisted job table transforms it record by record;
every record stored as RUNNING comes back FAILED with the non-empty
restart error message, and records of every other status come back
exactly as stored. -/
theorem load_jobs_resets_running (stored : List TrainingJob) :
    load_jobs stored = stored.map load_job ∧
    ∀ j : TrainingJob,
      (j.status = JobStatus.running →
        (load_job j).status = JobStatus.failed ∧
        (load_job j).error_message = some restartMessage ∧
        restartMessage ≠ "") ∧
      (j.status ≠ JobStatus.running → load_job j = j) := by
  refine ⟨rfl, fun j => ⟨fun h => ?_, fun h => ?_⟩⟩
  · refine ⟨by simp [load_job, h], by simp [load_job, h], by decide⟩
  · simp [load_job, h]

/-- Witness for C3 at a RUNNING and a COMPLETED stored job. -/
theorem load_jobs_resets_running_witness :
    (load_job (mkJob "r" JobStatus.running)).status = JobStatus.failed ∧
    load_job (mkJob "c" JobStatus.completed) = mkJob "c" JobStatus.completed := by
  have h := load_jobs_resets_running [mkJob "r" JobStatus.running]
  exact ⟨((h.2 (mkJob "r" JobStatus.running)).1 rfl).1,
         (h.2 (mkJob "c" JobStatus.completed)).2 (by decide)⟩

/-- C4: `add_job_event` stores exactly the truncated append of the new
event; any sequence of appends starting from the empty log stays within
1000 entries; and appending to a log already holding exactly 1000 entries
drops the oldest entry while keeping the most recent 1000 in append
order. -/
theorem event_log_bounded (st : ManagerState) (jobId ty : String)
    (d : EventData) (now : Nat) (es : List ProgressUpdate)
    (l : List ProgressUpdate) (e : ProgressUpdate)
    (hfull : l.length = eventLogLimit) :
    lookupA (add_job_event st jobId ty d now).job_events jobId =
      some (appendEvent ((lookupA st.job_events jobId).getD [])
        { job_id := jobId, event_type := ty, data := d, timestamp := now }) ∧
    (es.foldl appendEvent []).length ≤ eventLogLimit ∧
    appendEvent l e = l.tail ++ [e] := by
  refine ⟨?_, foldl_appendEvent_length_le es [] (by simp), ?_⟩
  · simp only [add_job_event]
    exact lookupA_updateA_self _ _ _
  · have hlen : (l ++ [e]).length = eventLogLimit + 1 := by
      rw [List.length_append, hfull]
      rfl
    have hgt : eventLogLimit < (l ++ [e]).length := by omega
    have hone : (1 : Nat) ≤ l.length := by rw [hfull]; decide
    have h1 : (l ++ [e]).length - eventLogLimit = 1 := by omega
    simp only [appendEvent, if_pos hgt, h1]
    rw [List.drop_append_of_le_length hone, List.drop_one]

/-- Witness for C4 at a log holding exactly 1000 entries. -/
theorem event_log_bounded_witness :
    appendEvent (List.replicate eventLogLimit ev0) ev0 =
      (List.replicate eventLogLimit ev0).tail ++ [ev0] := by
  have h := event_log_bounded stEmpty "j" "error" (EventData.errorData "e") 0 []
    (List.replicate eventLogLimit ev0) ev0 (by simp)
  exact h.2.2

/-- C5: for a RUNNING job and a metrics snapshot with a non-zero epoch
total, the progress callback succeeds and the resulting state has the
job's metrics set to the snapshot, `current_epoch` set to the snapshot's
epoch, `progress_percent` set to the value of `(epoch / total_epochs) *
100` — equal to the claimed `100 * epoch / total_epochs` — appends exactly
one `metrics` event to the job's log, and persists the job store. -/
theorem progress_callback_spec (st : ManagerState) (jobId : String)
    (j : TrainingJob) (m : TrainingMetrics) (now : Nat)
    (hfind : findJob st.jobs jobId = some j)
    (_hrun : j.status = JobStatus.running)
    (htot : m.total_epochs ≠ 0) :
    progress_callback st jobId m now =
      some ((progress_callback st jobId m now).getD st) ∧
    findJob ((progress_callback st jobId m now).getD st).jobs jobId =
      some { j with
        metrics := some m,
        current_epoch := m.epoch,
        progress_percent := ((m.epoch : ℚ) / (m.total_epochs : ℚ)) * 100 } ∧
    ((m.epoch : ℚ) / (m.total_epochs : ℚ)) * 100 =
      100 * (m.epoch : ℚ) / (m.total_epochs : ℚ) ∧
    lookupA ((progress_callback st jobId m now).getD st).job_events jobId =
      some (appendEvent ((lookupA st.job_events jobId).getD [])
        { job_id := jobId, event_type := "metrics",
          data := EventData.metricsData m, timestamp := now }) ∧
    ((progress_callback st jobId m now).getD st).persisted =
      ((progress_callback st jobId m now).getD st).jobs :: st.persisted := by
  have hcb : progress_callback st jobId m now =
      some (save_jobs (add_job_event
        { st with jobs := updateJob st.jobs jobId (fun j => { j with
            metrics := some m, current_epoch := m.epoch,
            progress_percent := ((m.epoch : ℚ) / (m.total_epochs : ℚ)) * 100 }) }
        jobId "metrics" (EventData.metricsData m) now)) := by
    unfold progress_callback
    rw [if_neg htot]
  rw [hcb]
  refine ⟨rfl, ?_, by ring, ?_, rfl⟩
  · have h := findJob_updateJob_self st.jobs jobId
      (fun j => { j with
        metrics := some m, current_epoch := m.epoch,
        progress_percent := ((m.epoch : ℚ) / (m.total_epochs : ℚ)) * 100 })
      (fun _ => rfl)
    show findJob (updateJob st.jobs jobId _) jobId = _
    rw [h, hfind]
    rfl
  · show lookupA (updateA st.job_events jobId _) jobId = _
    exact lookupA_updateA_self _ _ _

/-- Witness for C5: epoch 25 of 50 yields progress 50.0. -/
theorem progress_callback_spec_witness :
    findJob ((progress_callback stC5 "r" mC5 7).getD stC5).jobs "r" =
      some { mkJob "r" JobStatus.running with
        metrics := some mC5,
        current_epoch := 25,
        progress_percent := ((25 : ℚ) / (50 : ℚ)) * 100 } ∧
    ((25 : ℚ) / (50 : ℚ)) * 100 = 50 ∧
    ((progress_callback stC5 "r" mC5 7).getD stC5).persisted =
      ((progress_callback stC5 "r" mC5 7).getD stC5).jobs :: stC5.persisted := by
  have h := progress_callback_spec stC5 "r" (mkJob "r" JobStatus.running) mC5 7
    (by rfl) rfl (by decide)
  refine ⟨?_, by norm_num, h.2.2.2.2⟩
  have h2 := h.2.1
  simpa using h2

/-- C6 counterexample: cancelling an already-COMPLETED job whose
completion timestamp is set overwrites that timestamp with the
cancellation time. -/
theorem cancel_job_overwrites_counterexample :
    (cancel_job stC6 "a" 9).2 = true ∧
    (findJob stC6.jobs "a").bind TrainingJob.completed_at = some 5 ∧
    (findJob (cancel_job stC6 "a" 9).1.jobs "a").bind TrainingJob.completed_at =
      some 9 := by
  decide

/-- C6 (amended): cancelling an existing non-running job returns success
and marks it CANCELLED, and the completion timestamp is always assigned
the cancellation time — overwriting any previously set value. -/
theorem cancel_job_nonrunning_spec (st : ManagerState) (jobId : String)
    (now : Nat) (j : TrainingJob)
    (hfind : findJob st.jobs jobId = some j)
    (_hnr : j.status ≠ JobStatus.running) :
    (cancel_job st jobId now).2 = true ∧
    findJob (cancel_job st jobId now).1.jobs jobId =
      some { j with status := JobStatus.cancelled,
                    completed_at := some now } := by
  have hstep : cancel_job st jobId now =
      (save_jobs { st with
        active_jobs := st.active_jobs.filter (fun i => i ≠ jobId),
        jobs := updateJob st.jobs jobId (fun j => { j with
          status := JobStatus.cancelled, completed_at := some now }) }, true) := by
    unfold cancel_job
    rw [hfind]
  rw [hstep]
  refine ⟨rfl, ?_⟩
  have h := findJob_updateJob_self st.jobs jobId
    (fun j => { j with status := JobStatus.cancelled, completed_at := some now })
    (fun _ => rfl)
  show findJob (updateJob st.jobs jobId _) jobId = _
  rw [h, hfind]
  rfl

/-- Witness for C6's amended theorem. -/
theorem cancel_job_nonrunning_spec_witness :
    (cancel_job stC6 "a" 9).2 = true ∧
    findJob (cancel_job stC6 "a" 9).1.jobs "a" =
      some { { mkJob "a" JobStatus.completed with completed_at := some 5 } with
             status := JobStatus.cancelled, completed_at := some 9 } :=
  cancel_job_nonrunning_spec stC6 "a" 9
    { mkJob "a" JobStatus.completed with completed_at := some 5 }
    (by rfl) (by decide)

/-- C7 counterexample: mailbox 1 is broken and belongs both to the `jobs`
topic set and to job `j1`'s set; broadcasting to the `jobs` topic evicts
it from the topic set but leaves it in the per-job set — it is not
evicted from every subscriber set it belongs to. -/
theorem broadcast_partial_eviction_counterexample :
    lookupA (broadcast_to_type hubC7 "jobs" msgC7).connections "jobs" =
      some [2] ∧
    lookupA (broadcast_to_type hubC7 "jobs" msgC7).job_connections "j1" =
      some [1] ∧
    lookupA (broadcast_to_type hubC7 "jobs" msgC7).mailboxes 2 =
      some { msgs := [msgC7], broken := false } := by
  decide

/-- C7 (amended): a mailbox whose enqueue raises is evicted from the
subscriber set currently being broadcast to only — a topic broadcast
leaves every per-job set untouched, so the dead mailbox survives in any
per-job set it belongs to — while every other live mailbox subscribed to
the topic still receives the event. -/
theorem broadcast_evicts_only_topic_set (hub : HubState) (ctype : String)
    (msg : SSEMessage) (ids : List Nat) (b g : Nat) (mbg : Mailbox)
    (hids : lookupA hub.connections ctype = some ids)
    (hbroken : isBrokenIn hub b = true)
    (hg : g ∈ ids) (hmbg : lookupA hub.mailboxes g = some mbg)
    (hlive : mbg.broken = false) :
    lookupA (broadcast_to_type hub ctype msg).connections ctype =
      some (ids.filter (fun i => !isBrokenIn hub i)) ∧
    b ∉ ids.filter (fun i => !isBrokenIn hub i) ∧
    (broadcast_to_type hub ctype msg).job_connections = hub.job_connections ∧
    lookupA (broadcast_to_type hub ctype msg).mailboxes g =
      some { mbg with msgs := mbg.msgs ++ [msg] } := by
  have hstep : broadcast_to_type hub ctype msg =
      { hub with
        mailboxes := deliverToSet hub.mailboxes ids msg,
        connections := updateA hub.connections ctype (ids.filter (fun i => !isBrokenIn hub i)) } := by
    unfold broadcast_to_type
    rw [hids]
  rw [hstep]
  refine ⟨lookupA_updateA_self _ _ _, ?_, rfl, ?_⟩
  · intro hmem
    rw [List.mem_filter, hbroken] at hmem
    simp at hmem
  · show lookupA (deliverToSet hub.mailboxes ids msg) g = _
    unfold deliverToSet
    rw [lookupA_mapVal hub.mailboxes
      (fun k mb => if k ∈ ids ∧ mb.broken = false then
        { mb with msgs := (queuePut mb.msgs msg).1 } else mb) g, hmbg]
    simp [hg, hlive, queuePut_fst]

/-- Witness for C7's amended theorem on the two-mailbox hub. -/
theorem broadcast_evicts_only_topic_set_witness :
    lookupA (broadcast_to_type hubC7 "jobs" msgC7).connections "jobs" =
      some ([1, 2].filter (fun i => !isBrokenIn hubC7 i)) ∧
    1 ∉ [1, 2].filter (fun i => !isBrokenIn hubC7 i) ∧
    (broadcast_to_type hubC7 "jobs" msgC7).job_connections =
      hubC7.job_connections ∧
    lookupA (broadcast_to_type hubC7 "jobs" msgC7).mailboxes 2 =
      some { mbLive with msgs := mbLive.msgs ++ [msgC7] } :=
  broadcast_evicts_only_topic_set hubC7 "jobs" msgC7 [1, 2] 1 2 mbLive
    (by rfl) (by rfl) (by decide) (by rfl) rfl

/-- C8: the bounded-mailbox claim is contradicted by the enqueue
semantics — `await queue.put` on a full `asyncio.Queue` suspends the
producer until a slot frees and never raises `QueueFull`, so
`_send_to_queue`'s drop branch is dead code: the excess message is not
dropped, and publish does not return without blocking. -/
theorem send_to_queue_full_blocks (mb : Mailbox) (msg : SSEMessage)
    (hfull : mb.msgs.length = queueCapacity) (hlive : mb.broken = false) :
    send_to_queue mb msg =
      SendResult.sent { mb with msgs := mb.msgs ++ [msg] }
        PutOutcome.afterWait ∧
    ∀ q m, (queuePut q m).1 = q ++ [m] := by
  refine ⟨?_, queuePut_fst⟩
  unfold send_to_queue queuePut
  rw [hlive]
  simp [hfull]

/-- Witness for C8's theorem at a mailbox holding exactly 100 messages. -/
theorem send_to_queue_full_blocks_witness :
    send_to_queue { msgs := List.replicate queueCapacity (SSEMessage.heartbeat 0),
                    broken := false } (SSEMessage.heartbeat 1) =
      SendResult.sent
        { msgs := List.replicate queueCapacity (SSEMessage.heartbeat 0) ++
            [SSEMessage.heartbeat 1], broken := false }
        PutOutcome.afterWait ∧
    (queuePut (List.replicate queueCapacity (SSEMessage.heartbeat 0))
      (SSEMessage.heartbeat 1)).1 =
      List.replicate queueCapacity (SSEMessage.heartbeat 0) ++
        [SSEMessage.heartbeat 1] := by
  have h := send_to_queue_full_blocks
    { msgs := List.replicate queueCapacity (SSEMessage.heartbeat 0),
      broken := false }
    (SSEMessage.heartbeat 1) (by simp) rfl
  exact ⟨h.1, h.2 (List.replicate queueCapacity (SSEMessage.heartbeat 0))
    (SSEMessage.heartbeat 1)⟩

/-- C9 counterexample: after a publish on the `training` topic, a late
subscriber's mailbox receives only the `connected` frame — no cached
payload exists for `training`, because `broadcast_training_metrics` never
writes the last-state cache. -/
theorem training_cache_counterexample :
    lookupA hubC9.last_state "training" = none ∧
    lookupA (subscribeStream hubC9 "training" 7 none 2).mailboxes 7 =
      some { msgs := [SSEMessage.connectedMsg "training" none 2],
             broken := false } := by
  decide

/-- C9 (amended): publishing a job update or a system update records the
payload in the topic's last-state cache, and a subscriber joining
afterwards receives the cached payload as its first message, before the
`connected` frame and any newer event; publishing training metrics
however writes no cache, so a late `training` subscriber (in any state
whose cache has no `training` entry, which no code path ever writes)
receives no cached payload. -/
theorem last_state_cache_spec (hub : HubState) (jobId ty : String)
    (d : EventData) (dsys : String) (m : TrainingMetrics)
    (now now2 : Nat) (mid : Nat)
    (htr : lookupA hub.last_state "training" = none) :
    (∃ p, lookupA (broadcast_job_update hub jobId ty d now).last_state
        "jobs" = some p ∧
      lookupA (subscribeStream (broadcast_job_update hub jobId ty d now)
          "jobs" mid none now2).mailboxes mid =
        some { msgs := [SSEMessage.stateMsg "jobs" p now2,
                        SSEMessage.connectedMsg "jobs" none now2],
               broken := false }) ∧
    (∃ p, lookupA (broadcast_system_update hub dsys now).last_state
        "system" = some p ∧
      lookupA (subscribeStream (broadcast_system_update hub dsys now)
          "system" mid none now2).mailboxes mid =
        some { msgs := [SSEMessage.stateMsg "system" p now2,
                        SSEMessage.connectedMsg "system" none now2],
               broken := false }) ∧
    (broadcast_training_metrics hub jobId m now).last_state =
      hub.last_state ∧
    lookupA (subscribeStream (broadcast_training_metrics hub jobId m now)
        "training" mid none now2).mailboxes mid =
      some { msgs := [SSEMessage.connectedMsg "training" none now2],
             broken := false } := by
  refine ⟨⟨LastState.jobsMap (updateA
      (match lookupA hub.last_state "jobs" with
       | some (LastState.jobsMap entries) => entries
       | _ => [])
      jobId
      { job_id := jobId, event_type := ty, data := d, timestamp := now }),
      ?_, ?_⟩,
    ⟨LastState.systemData dsys, ?_, ?_⟩,
    broadcast_training_metrics_last_state hub jobId m now, ?_⟩
  · rw [broadcast_job_update_last_state]
    exact lookupA_updateA_self _ _ _
  · rw [subscribeStream_mailbox, broadcast_job_update_last_state,
      lookupA_updateA_self]
  · rw [broadcast_system_update_last_state]
    exact lookupA_updateA_self _ _ _
  · rw [subscribeStream_mailbox, broadcast_system_update_last_state,
      lookupA_updateA_self]
  · rw [subscribeStream_mailbox, broadcast_training_metrics_last_state, htr]

/-- Witness for C9's amended theorem at the fresh hub: a training publish
leaves the cache untouched and the late subscriber receives only the
`connected` frame. -/
theorem last_state_cache_spec_witness :
    (broadcast_training_metrics initialHub "j1" mC9 1).last_state =
      initialHub.last_state ∧
    lookupA (subscribeStream (broadcast_training_metrics initialHub "j1" mC9 1)
        "training" 7 none 2).mailboxes 7 =
      some { msgs := [SSEMessage.connectedMsg "training" none 2],
             broken := false } := by
  have h := last_state_cache_spec initialHub "j1" "metrics"
    (EventData.errorData "x") "sys" mC9 1 2 7 rfl
  exact ⟨h.2.2.1, h.2.2.2⟩

/-- C10: when the dataset path exists, a dataset-analysis failure does not
fail `create_job`: the job is still created PENDING, with the fallback
descriptor whose class list is `["unknown"]` and whose train and
validation image counts are 0, and it is stored and persisted. -/
theorem create_job_analysis_fallback (st : ManagerState)
    (req : JobCreateRequest) (dsName newId : String) (now : Nat) :
    ∀ stJob : ManagerState × TrainingJob,
      create_job st req true dsName AnalysisAttempt.raised newId now =
        Except.ok stJob →
      stJob.2.status = JobStatus.pending ∧
      stJob.2.dataset.classes = ["unknown"] ∧
      stJob.2.dataset.train_images = 0 ∧
      stJob.2.dataset.val_images = 0 ∧
      findJob stJob.1.jobs newId = some stJob.2 ∧
      stJob.1.persisted = stJob.1.jobs :: st.persisted := by
  intro stJob hok
  have hok2 : create_job st req true dsName AnalysisAttempt.raised newId now =
      Except.ok
        (save_jobs { st with
          jobs := insertJob st.jobs (fallbackJob req dsName newId now) },
         fallbackJob req dsName newId now) := by
    unfold create_job fallbackJob
    rw [if_pos rfl]
  rw [hok2] at hok
  injection hok with h
  subst h
  refine ⟨rfl, rfl, rfl, rfl, ?_, rfl⟩
  show findJob (insertJob st.jobs (fallbackJob req dsName newId now)) newId = _
  exact findJob_insertJob st.jobs (fallbackJob req dsName newId now)

/-- Witness for C10: a failed analysis attempt on an existing path still
yields a PENDING job with the fallback dataset descriptor. -/
theorem create_job_analysis_fallback_witness :
    jobC10.status = JobStatus.pending ∧
    jobC10.dataset.classes = ["unknown"] ∧
    jobC10.dataset.train_images = 0 ∧
    jobC10.dataset.val_images = 0 ∧
    findJob stC10.jobs "job_1" = some jobC10 ∧
    stC10.persisted = stC10.jobs :: stEmpty.persisted :=
  create_job_analysis_fallback stEmpty reqC10 "ds" "job_1" 4
    (stC10, jobC10) (by rfl)

end EletronsServer
